import Mathlib

/-!
Verification development for the llama.cpp server supervisor and CUDA device
inventory of the `llm_client` repository
(`llm_interface/src/llms/local/llama_cpp/server.rs` and
`llm_interface/src/llms/local/devices/cuda.rs`).

The Rust code is shallowly embedded: IO-facing behaviour (TCP connects,
HTTP probe responses, process spawning) is abstracted into explicit function
parameters describing the outside world, while the control flow of each
function is translated statement by statement.  Machine integers are modelled
as `Nat` with explicit wrap-around modulo `2^64` where Rust's release-mode
wrapping subtraction matters.  Side effects (kill signals, orphan sweeps,
spawns) are recorded in an explicit event trace; the process-wide
`CUDA_VISIBLE_DEVICES` variable is threaded as explicit state.
-/

/-- `ServerStatus` from `server.rs`.  `Running` means "reachable but serving a
different model" (the spec's `RunningWrongModel`); `RunningRequested` means
"reachable and serving the requested model" (the spec's
`RunningCorrectModel`). -/
inductive ServerStatus
  | Running
  | RunningRequested
  | Stopped
deriving DecidableEq, Repr

/- Timing constants at the top of `server.rs`. -/

def STATUS_CHECK_TIME_MS : Nat := 650

def STATUS_RETRY_TIMEOUT_MS : Nat := 200

def START_UP_CHECK_TIME_S : Nat := 30

def START_UP_RETRY_TIME_S : Nat := 5

/-- The loop body of `LlamaCppServer::check_server_config`.  The outside world
is `respond : Nat → Option String`: attempt number `attempts` either yields a
successful completion response carrying the served model identifier
(`some model`, the `Ok(res)` branch with `res.model`) or a client error
(`none`, the `Err(e)` branch, after which `attempts` is incremented and the
loop retries).  The first argument of the recursion is the remaining fuel
`conn_attempts - attempts`; the `while attempts < conn_attempts` loop exits
with `Ok(ServerStatus::Stopped)` when it is exhausted. -/
def checkServerConfigAux (requested : String) (respond : Nat → Option String) :
    Nat → Nat → ServerStatus
  | 0, _ => ServerStatus.Stopped
  | fuel + 1, attempts =>
      match respond attempts with
      | some model =>
          if requested = model then ServerStatus.RunningRequested
          else ServerStatus.Running
      | none => checkServerConfigAux requested respond fuel (attempts + 1)

/-- `LlamaCppServer::check_server_config(conn_attempts, retry_time, client)`.
`requested` is `self.local_config.device_config.local_model_path`, the model
identifier the probe compares against `res.model`.  The sleep between retries
is time, not state, and is not modelled. -/
def check_server_config (requested : String) (respond : Nat → Option String)
    (conn_attempts : Nat) : ServerStatus :=
  checkServerConfigAux requested respond conn_attempts 0

/-- The loop body of `LlamaCppServer::test_connection`.  The world is
`connectOk : Nat → Bool`: whether the `i`-th `TcpStream::connect` attempt
succeeds.  The fuel counts how many loop iterations the wall-clock budget
`test_time` admits (each failed attempt sleeps `retry_time`, so the budget
admits finitely many iterations). -/
def testConnectionAux (connectOk : Nat → Bool) : Nat → Nat → ServerStatus
  | 0, _ => ServerStatus.Stopped
  | fuel + 1, i =>
      if connectOk i then ServerStatus.Running
      else testConnectionAux connectOk fuel (i + 1)

/-- `LlamaCppServer::test_connection(test_time, retry_time)`: returns
`Running` as soon as one TCP connect succeeds, `Stopped` once the time budget
elapses with no success. -/
def test_connection (connectOk : Nat → Bool) (iters : Nat) : ServerStatus :=
  testConnectionAux connectOk iters 0

/-- `LlamaCppServer::connect_with_timeouts(test_duration, retry_timeout,
client)`: stage 1 is `test_connection`; only if it reports `Running` does
stage 2 (`check_server_config` with the literal `conn_attempts = 3` from the
call site) run, and any stage-2 outcome other than `RunningRequested` is
reported to the caller as `Stopped`.  In the source the function returns
`crate::Result<ServerStatus>` but every path returns `Ok`, so the model is
pure. -/
def connect_with_timeouts (requested : String) (connectOk : Nat → Bool)
    (iters : Nat) (respond : Nat → Option String) : ServerStatus :=
  if test_connection connectOk iters = ServerStatus.Running then
    if check_server_config requested respond 3 = ServerStatus.RunningRequested then
      ServerStatus.RunningRequested
    else ServerStatus.Stopped
  else ServerStatus.Stopped

/- Step lemmas for the probe loops. -/

theorem checkAux_zero (r : String) (f : Nat → Option String) (a : Nat) :
    checkServerConfigAux r f 0 a = ServerStatus.Stopped := rfl

theorem checkAux_succ (r : String) (f : Nat → Option String) (n a : Nat) :
    checkServerConfigAux r f (n + 1) a =
      match f a with
      | some model =>
          if r = model then ServerStatus.RunningRequested
          else ServerStatus.Running
      | none => checkServerConfigAux r f n (a + 1) := rfl

/-- If the attempt at index `a + k` is the first to succeed and it lies within
the remaining fuel, the loop returns the match verdict on its model string. -/
theorem checkAux_first_success (r m : String) (f : Nat → Option String) :
    ∀ fuel k a, k < fuel → (∀ j, j < k → f (a + j) = none) → f (a + k) = some m →
      checkServerConfigAux r f fuel a =
        if r = m then ServerStatus.RunningRequested else ServerStatus.Running := by
  intro fuel
  induction fuel with
  | zero => intro k a hk _ _; omega
  | succ n ih =>
      intro k a hk hnone hsome
      cases k with
      | zero =>
          have ha : f a = some m := by simpa using hsome
          rw [checkAux_succ, ha]
      | succ k =>
          have ha : f a = none := by simpa using hnone 0 (Nat.succ_pos k)
          rw [checkAux_succ, ha]
          have hsome2 : f (a + 1 + k) = some m := by
            have : a + 1 + k = a + (k + 1) := by omega
            rw [this]; exact hsome
          have hnone2 : ∀ j, j < k → f (a + 1 + j) = none := by
            intro j hj
            have : a + 1 + j = a + (j + 1) := by omega
            rw [this]; exact hnone (j + 1) (by omega)
          exact ih k (a + 1) (by omega) hnone2 hsome2

/-- If every attempt within the fuel budget errors, the loop falls through and
returns `Stopped`. -/
theorem checkAux_all_fail (r : String) (f : Nat → Option String) :
    ∀ fuel a, (∀ j, j < fuel → f (a + j) = none) →
      checkServerConfigAux r f fuel a = ServerStatus.Stopped := by
  intro fuel
  induction fuel with
  | zero => intro a _; rfl
  | succ n ih =>
      intro a hnone
      have ha : f a = none := by simpa using hnone 0 (Nat.succ_pos n)
      rw [checkAux_succ, ha]
      apply ih
      intro j hj
      have : a + 1 + j = a + (j + 1) := by omega
      rw [this]; exact hnone (j + 1) (by omega)

/-- Claim C6: for an identity-check run of the probe (`check_server_config`
with its call-site attempt budget of 3): a successful response whose served
model identifier exactly equals the requested identifier yields
`RunningRequested` (RunningCorrectModel); a successful response with a
different identifier yields `Running` (RunningWrongModel); and if all three
attempts error, the result is `Stopped`. -/
theorem C6_check_server_config_cases (requested m : String)
    (respond : Nat → Option String) (k : Nat) :
    (k < 3 → (∀ j, j < k → respond j = none) → respond k = some m →
        requested = m →
        check_server_config requested respond 3 = ServerStatus.RunningRequested) ∧
    (k < 3 → (∀ j, j < k → respond j = none) → respond k = some m →
        requested ≠ m →
        check_server_config requested respond 3 = ServerStatus.Running) ∧
    ((∀ j, j < 3 → respond j = none) →
        check_server_config requested respond 3 = ServerStatus.Stopped) := by
  refine ⟨?_, ?_, ?_⟩
  · intro hk hnone hsome heq
    have h := checkAux_first_success requested m respond 3 k 0 hk
      (by intro j hj; simpa using hnone j hj) (by simpa using hsome)
    rw [check_server_config, h, if_pos heq]
  · intro hk hnone hsome hne
    have h := checkAux_first_success requested m respond 3 k 0 hk
      (by intro j hj; simpa using hnone j hj) (by simpa using hsome)
    rw [check_server_config, h, if_neg hne]
  · intro hnone
    exact checkAux_all_fail requested respond 3 0 (by intro j hj; simpa using hnone j hj)

/-- Witness for C6 at concrete inputs: an immediate exact match, an immediate
mismatch, and three straight errors. -/
theorem C6_witness :
    check_server_config "a" (fun _ => some "a") 3 = ServerStatus.RunningRequested ∧
    check_server_config "a" (fun _ => some "b") 3 = ServerStatus.Running ∧
    check_server_config "a" (fun _ => none) 3 = ServerStatus.Stopped :=
  ⟨(C6_check_server_config_cases "a" "a" (fun _ => some "a") 0).1 (by decide)
      (by intro j hj; omega) rfl rfl,
   (C6_check_server_config_cases "a" "b" (fun _ => some "b") 0).2.1 (by decide)
      (by intro j hj; omega) rfl (by decide),
   (C6_check_server_config_cases "a" "a" (fun _ => none) 0).2.2
      (by intro j hj; rfl)⟩

/-- Claim C7: the composed two-stage probe `connect_with_timeouts` returns
only `RunningRequested` or `Stopped`, never `Running`: a reachable server
serving a different model identifier is reported to the caller as `Stopped`. -/
theorem C7_connect_never_running (requested : String) (connectOk : Nat → Bool)
    (iters : Nat) (respond : Nat → Option String) :
    connect_with_timeouts requested connectOk iters respond = ServerStatus.RunningRequested ∨
    connect_with_timeouts requested connectOk iters respond = ServerStatus.Stopped := by
  unfold connect_with_timeouts
  split
  · split
    · exact Or.inl rfl
    · exact Or.inr rfl
  · exact Or.inr rfl

/-- The process-wide environment state threaded through `start_server`:
the `CUDA_VISIBLE_DEVICES` variable (`none` = unset). -/
structure EnvState where
  cudaVisibleDevices : Option String
deriving DecidableEq, Repr

/-- The supervisor's mutable field `self.server_process` (the tracked child's
pid; `none` before any spawn).  `kill_server_process` does not clear it. -/
structure SupState where
  server_process : Option Nat
deriving DecidableEq, Repr

/-- Externally visible process-control actions of the supervisor, in program
order.  `killTracked pid` is the signal sent to the tracked child (the `kill
<pid>` command plus `Child::kill`); `sweep` is `kill_all_servers` (the
system-wide `pgrep -f ^./llama-server` sweep); `spawn pid` is a successful
`Command::spawn` of a new server. -/
inductive SupEvent
  | killTracked (pid : Nat)
  | sweep
  | spawn (pid : Nat)
deriving DecidableEq, Repr

/-- How a `start_server` run ends abnormally: `err` models a `crate::Result`
error returned with `?` (here: `start_server_backend` failing before spawn),
`panicked msg` models a Rust `panic` with that message. -/
inductive StartError
  | err (msg : String)
  | panicked (msg : String)
deriving DecidableEq, Repr

/-- `LlamaCppServer::kill_server_process`: if a child is tracked, signal its
pid (and `Child::kill` it); then unconditionally run the system-wide orphan
sweep `kill_all_servers`.  The settle sleeps are time, not state.  The tracked
pid is not cleared by the source. -/
def kill_server_process (s : SupState) : SupState × List SupEvent :=
  match s.server_process with
  | some pid => (s, [SupEvent.killTracked pid, SupEvent.sweep])
  | none => (s, [SupEvent.sweep])

/-- The outside world seen by one `connect_with_timeouts` call: which TCP
connect attempts succeed, how many attempts the time budget admits, and the
completion-probe responses. -/
structure ProbeWorld where
  connectOk : Nat → Bool
  iters : Nat
  respond : Nat → Option String

/-- Run a `ProbeWorld` through `connect_with_timeouts`. -/
def runProbe (requested : String) (w : ProbeWorld) : ServerStatus :=
  connect_with_timeouts requested w.connectOk w.iters w.respond

/-- The tail of `start_server` after the startup-budget probe: the `match` on
the second `connect_with_timeouts` result.  `original` is the saved
`CUDA_VISIBLE_DEVICES` value; it is restored only in the `RunningRequested`
arm (and only when `use_gpu` is false).  The `Stopped` and `Running` arms kill
the spawned process (plus orphan sweep) and `panic`, restoring nothing. -/
def startServerFinish (useGpu : Bool) (original : Option String) (s : SupState)
    (env : EnvState) (evs : List SupEvent) :
    ServerStatus → Except StartError ServerStatus × SupState × EnvState × List SupEvent
  | ServerStatus.RunningRequested =>
      let env2 := if useGpu then env else { cudaVisibleDevices := original }
      (Except.ok ServerStatus.RunningRequested, s, env2, evs)
  | ServerStatus.Stopped =>
      let r := kill_server_process s
      (Except.error (StartError.panicked "Failed to start server"), r.1, env,
        evs ++ r.2)
  | ServerStatus.Running =>
      let r := kill_server_process s
      (Except.error (StartError.panicked "Failed to start server with correct model."),
        r.1, env, evs ++ r.2)

/-- The middle of `start_server`: save `CUDA_VISIBLE_DEVICES` and blank it
when GPU use is disabled, run `start_server_backend` (`spawnO` is its result:
`Except.error` models the `?`-propagated failure of `get_llama_cpp_path`,
`Except.ok pid` a successful spawn recorded in `self.server_process`), then
run the startup-budget probe and finish. -/
def startServerSpawnPhase (useGpu : Bool) (requested : String)
    (startupW : ProbeWorld) (spawnO : Except Unit Nat) (s : SupState)
    (env : EnvState) (evs : List SupEvent) :
    Except StartError ServerStatus × SupState × EnvState × List SupEvent :=
  let original := if useGpu then none else env.cudaVisibleDevices
  let env1 := if useGpu then env else { cudaVisibleDevices := some "" }
  match spawnO with
  | Except.error _ => (Except.error (StartError.err "Could not find llama_cpp path"), s, env1, evs)
  | Except.ok pid =>
      startServerFinish useGpu original { server_process := some pid } env1
        (evs ++ [SupEvent.spawn pid])
        (runProbe requested startupW)

/-- The head of `start_server`: the `match` on the status-check probe.
`RunningRequested` returns success immediately; `Stopped` falls through to the
spawn phase; `Running` calls `kill_server_process` first and then falls
through. -/
def startServerAfterStatus (useGpu : Bool) (requested : String)
    (startupW : ProbeWorld) (spawnO : Except Unit Nat) (s : SupState)
    (env : EnvState) :
    ServerStatus → Except StartError ServerStatus × SupState × EnvState × List SupEvent
  | ServerStatus.RunningRequested =>
      (Except.ok ServerStatus.RunningRequested, s, env, [])
  | ServerStatus.Stopped =>
      startServerSpawnPhase useGpu requested startupW spawnO s env []
  | ServerStatus.Running =>
      let r := kill_server_process s
      startServerSpawnPhase useGpu requested startupW spawnO r.1 env r.2

/-- `LlamaCppServer::start_server(client)`.  `useGpu` is
`self.local_config.device_config.use_gpu`, `requested` the requested model
identifier, `statusW`/`startupW` the worlds behind the status-check and
startup-check `connect_with_timeouts` calls (650 ms/200 ms and 30 s/5 s
budgets respectively), `spawnO` the outcome of `start_server_backend`, `s` the
supervisor state and `env` the process environment on entry.  Returns the
result, the final supervisor state, the final environment, and the trace of
process-control events. -/
def start_server (useGpu : Bool) (requested : String)
    (statusW startupW : ProbeWorld) (spawnO : Except Unit Nat) (s : SupState)
    (env : EnvState) :
    Except StartError ServerStatus × SupState × EnvState × List SupEvent :=
  startServerAfterStatus useGpu requested startupW spawnO s env
    (runProbe requested statusW)

/-- Event trace of two consecutive `start_server` calls against the same
worlds, the second starting from the state and environment the first left
behind. -/
def twoConsecutiveCalls (useGpu : Bool) (requested : String)
    (statusW startupW : ProbeWorld) (spawnO : Except Unit Nat) (s : SupState)
    (env : EnvState) : List SupEvent :=
  let r1 := start_server useGpu requested statusW startupW spawnO s env
  let r2 := start_server useGpu requested statusW startupW spawnO r1.2.1 r1.2.2.1
  r1.2.2.2 ++ r2.2.2.2

/-- Claim C8: if the initial status probe reports the server already running
the requested model (`RunningRequested`), `start_server` returns success
immediately with state and environment unchanged and an empty event trace (no
spawn, no kill); hence two consecutive calls in that state produce zero
events in total. -/
theorem C8_idempotent_when_running_requested (useGpu : Bool) (requested : String)
    (statusW startupW : ProbeWorld) (spawnO : Except Unit Nat) (s : SupState)
    (env : EnvState)
    (h : runProbe requested statusW = ServerStatus.RunningRequested) :
    start_server useGpu requested statusW startupW spawnO s env =
      (Except.ok ServerStatus.RunningRequested, s, env, []) ∧
    twoConsecutiveCalls useGpu requested statusW startupW spawnO s env = [] := by
  have h1 : start_server useGpu requested statusW startupW spawnO s env =
      (Except.ok ServerStatus.RunningRequested, s, env, []) := by
    unfold start_server
    rw [h]
    rfl
  refine ⟨h1, ?_⟩
  unfold twoConsecutiveCalls
  rw [h1]
  unfold start_server
  rw [h]
  rfl

/-- Witness for C8: a world where the endpoint is reachable and already
serves the requested model. -/
theorem C8_witness :
    start_server true "a" ⟨fun _ => true, 1, fun _ => some "a"⟩
        ⟨fun _ => false, 1, fun _ => none⟩ (Except.ok 7) ⟨none⟩ ⟨none⟩ =
      (Except.ok ServerStatus.RunningRequested, ⟨none⟩, ⟨none⟩, []) ∧
    twoConsecutiveCalls true "a" ⟨fun _ => true, 1, fun _ => some "a"⟩
        ⟨fun _ => false, 1, fun _ => none⟩ (Except.ok 7) ⟨none⟩ ⟨none⟩ = [] :=
  C8_idempotent_when_running_requested true "a" _ _ (Except.ok 7) ⟨none⟩ ⟨none⟩ rfl

/-- Claim C1 (code evaluated at the failing input): with the endpoint
reachable ("b" served) while "a" is requested — the `RunningWrongModel`
situation, as the second conjunct's `check_server_config` verdict shows —
the status probe nevertheless reports `Stopped`, and `start_server` spawns
the new process with an event trace containing no kill and no sweep at all:
the `Running => kill_server_process` arm of `start_server` is unreachable. -/
theorem C1_wrong_model_no_sweep_before_spawn :
    check_server_config "a" (fun _ => some "b") 3 = ServerStatus.Running ∧
    runProbe "a" ⟨fun _ => true, 1, fun _ => some "b"⟩ = ServerStatus.Stopped ∧
    start_server true "a" ⟨fun _ => true, 1, fun _ => some "b"⟩
        ⟨fun _ => true, 1, fun _ => some "a"⟩ (Except.ok 42) ⟨none⟩ ⟨none⟩ =
      (Except.ok ServerStatus.RunningRequested, ⟨some 42⟩, ⟨none⟩,
        [SupEvent.spawn 42]) ∧
    SupEvent.sweep ∉ [SupEvent.spawn 42] :=
  ⟨rfl, rfl, rfl, by decide⟩

/-- Claim C2 (code evaluated at the failing input): with GPU use disabled and
`CUDA_VISIBLE_DEVICES` previously `"0"`, a run whose startup probe never
succeeds ends in a panic with the variable still holding the override `""`
instead of the prior `"0"`: the restore only happens on the success path. -/
theorem C2_env_not_restored_on_failure :
    start_server false "a" ⟨fun _ => false, 1, fun _ => none⟩
        ⟨fun _ => false, 1, fun _ => none⟩ (Except.ok 7) ⟨none⟩ ⟨some "0"⟩ =
      (Except.error (StartError.panicked "Failed to start server"), ⟨some 7⟩,
        ⟨some ""⟩, [SupEvent.spawn 7, SupEvent.killTracked 7, SupEvent.sweep]) ∧
    (some "" : Option String) ≠ some "0" :=
  ⟨rfl, by decide⟩

/-- Whether a `start_server` outcome is an error value returned to the caller
(a `crate::Result` error), as opposed to a success or a panic. -/
def isReturnedError : Except StartError ServerStatus → Bool
  | Except.error (StartError.err _) => true
  | _ => false

/-- Counterexample to claim C9 as stated: when the startup probe always
reports `Stopped`, `start_server` does not return a `StartupTimeout` (or any
other) error value to the caller — it panics with "Failed to start server". -/
theorem C9_panic_counterexample :
    (start_server true "a" ⟨fun _ => false, 1, fun _ => none⟩
        ⟨fun _ => false, 1, fun _ => none⟩ (Except.ok 7) ⟨none⟩ ⟨none⟩).1 =
      Except.error (StartError.panicked "Failed to start server") ∧
    isReturnedError (start_server true "a" ⟨fun _ => false, 1, fun _ => none⟩
        ⟨fun _ => false, 1, fun _ => none⟩ (Except.ok 7) ⟨none⟩ ⟨none⟩).1 = false :=
  ⟨rfl, rfl⟩

/-- Claim C9 as amended: whenever the status probe reports `Stopped`, the
spawn succeeds, and the startup-budget probe reports `Stopped`, `start_server`
kills the just-spawned process, performs the full orphan sweep, and fails
fatally by panicking with "Failed to start server" (rather than returning a
`StartupTimeout` error value); the trace is exactly one spawn followed by the
one kill-plus-sweep — no retry beyond the startup budget. -/
theorem C9_amended_kill_sweep_panic (useGpu : Bool) (requested : String)
    (statusW startupW : ProbeWorld) (pid : Nat) (s : SupState) (env : EnvState)
    (h1 : runProbe requested statusW = ServerStatus.Stopped)
    (h2 : runProbe requested startupW = ServerStatus.Stopped) :
    start_server useGpu requested statusW startupW (Except.ok pid) s env =
      (Except.error (StartError.panicked "Failed to start server"),
        ⟨some pid⟩, (if useGpu then env else ⟨some ""⟩),
        [SupEvent.spawn pid, SupEvent.killTracked pid, SupEvent.sweep]) := by
  unfold start_server
  rw [h1]
  show startServerFinish useGpu (if useGpu then none else env.cudaVisibleDevices)
      ⟨some pid⟩ (if useGpu then env else ⟨some ""⟩) [SupEvent.spawn pid]
      (runProbe requested startupW) = _
  rw [h2]
  rfl

/-- Witness for C9 as amended, at a concrete world whose probes always report
`Stopped`. -/
theorem C9_witness :
    start_server true "a" ⟨fun _ => false, 1, fun _ => none⟩
        ⟨fun _ => false, 1, fun _ => none⟩ (Except.ok 7) ⟨none⟩ ⟨none⟩ =
      (Except.error (StartError.panicked "Failed to start server"), ⟨some 7⟩,
        ⟨none⟩, [SupEvent.spawn 7, SupEvent.killTracked 7, SupEvent.sweep]) :=
  C9_amended_kill_sweep_panic true "a" ⟨fun _ => false, 1, fun _ => none⟩
    ⟨fun _ => false, 1, fun _ => none⟩ 7 ⟨none⟩ ⟨none⟩ rfl rfl

/- ===== Device inventory (`devices/cuda.rs`) ===== -/

/-- `CUDA_OVERHEAD` from `cuda.rs`: `500 * 1024 * 1024` bytes. -/
def CUDA_OVERHEAD : Nat := 500 * 1024 * 1024

/-- The modulus of Rust's `u64`, used for release-mode wrapping subtraction. -/
def U64_MOD : Nat := 2 ^ 64

/-- The fields of `nvml_wrapper`'s `MemoryInfo` that `CudaDevice::new`
reads. -/
structure MemoryInfo where
  total : Nat
deriving DecidableEq, Repr

/-- The driver-side view of one device as `CudaDevice::new` queries it:
`memory` is `none` when `memory_info()` errs; the metadata fields are `none`
when their queries err. -/
structure NvmlDevice where
  memory : Option MemoryInfo
  nameInfo : Option String
  powerLimit : Option Nat
  computeCapability : Option (Int × Int)
deriving DecidableEq, Repr

/-- `CudaDevice` from `cuda.rs`. -/
structure CudaDevice where
  ordinal : Nat
  available_vram_bytes : Nat
  name : Option String
  power_limit : Option Nat
  driver_major : Option Int
  driver_minor : Option Int
deriving DecidableEq, Repr

/-- `CudaDevice::new(ordinal, nvml)`.  The world argument is
`nvml.device_by_index(ordinal)` (`none` when that call errs).  The only
memory guard in the source is `memory_info.total != 0`; when it passes,
`available_vram_bytes` is the `u64` subtraction `memory_info.total -
CUDA_OVERHEAD`, which in release mode wraps modulo `2^64` (in debug mode it
panics) when `total < CUDA_OVERHEAD` — modelled as the explicit wrapping
subtraction. -/
def CudaDevice.new (ordinal : Nat) (dev : Option NvmlDevice) :
    Except String CudaDevice :=
  match dev with
  | none => Except.error "Failed to get device"
  | some d =>
      match d.memory with
      | none => Except.error "Failed to get device"
      | some memory_info =>
          if memory_info.total ≠ 0 then
            Except.ok
              { ordinal := ordinal
                available_vram_bytes :=
                  (memory_info.total + U64_MOD - CUDA_OVERHEAD) % U64_MOD
                name := d.nameInfo
                power_limit := d.powerLimit
                driver_major := (d.computeCapability.map Prod.fst)
                driver_minor := (d.computeCapability.map Prod.snd) }
          else Except.error "Device has 0 bytes of VRAM. Skipping device."

/-- Claim C3 (code evaluated at the failing input): a driver-reported total of
1 byte (strictly between 0 and `CUDA_OVERHEAD`) is not rejected by
`CudaDevice::new`; the subtraction underflows and the device is stored with
`available_vram_bytes = 2^64 - 524287999`, vastly larger than its total. -/
theorem C3_small_vram_underflow :
    0 < 1 ∧ 1 < CUDA_OVERHEAD ∧
    CudaDevice.new 0 (some ⟨some ⟨1⟩, none, none, none⟩) =
      Except.ok ⟨0, 18446744073185263617, none, none, none, none⟩ ∧
    18446744073185263617 ≠ 1 - CUDA_OVERHEAD :=
  ⟨by decide, by decide, rfl, by decide⟩

/-- The `while cuda_devices.len() < device_count` loop of
`get_all_cuda_devices`.  `probe o` is `CudaDevice::new(o, nvml).ok()` (the
`if let Ok` test).  The loop body appends on success, logs a warning once
`ordinal > 100` (a side effect with no influence on control flow), and
increments `ordinal`; there is no `break`.  `fuel` bounds how many iterations
we unroll: `none` means the loop is still running after `fuel` iterations,
`some acc` that it exited normally with the collected devices. -/
def getAllCudaDevicesLoop (probe : Nat → Option CudaDevice) (deviceCount : Nat) :
    Nat → Nat → List CudaDevice → Option (List CudaDevice)
  | 0, _, acc => if acc.length < deviceCount then none else some acc
  | fuel + 1, ordinal, acc =>
      if acc.length < deviceCount then
        getAllCudaDevicesLoop probe deviceCount fuel (ordinal + 1)
          (match probe ordinal with
           | some d => acc ++ [d]
           | none => acc)
      else some acc

/-- `get_all_cuda_devices(nvml)` up to `fuel` loop iterations: run the
enumeration loop from ordinal 0 with an empty accumulator, then apply the
final emptiness check (`bail!("No CUDA devices found")`). -/
def get_all_cuda_devices (probe : Nat → Option CudaDevice) (deviceCount : Nat)
    (fuel : Nat) : Option (Except String (List CudaDevice)) :=
  match getAllCudaDevicesLoop probe deviceCount fuel 0 [] with
  | none => none
  | some devs =>
      some (if devs.length = 0 then Except.error "No CUDA devices found"
            else Except.ok devs)

/-- Claim C4 (code evaluated at the failing input): when the driver reports
one device but every per-ordinal query fails, the enumeration loop of
`get_all_cuda_devices` never exits, no matter how many iterations it is
given: the `ordinal > 100` guard only logs, it never breaks, so discovery
loops forever instead of stopping at the bound. -/
theorem C4_probe_loop_never_stops :
    ∀ fuel ordinal,
      getAllCudaDevicesLoop (fun _ => none) 1 fuel ordinal [] = none ∧
      get_all_cuda_devices (fun _ => none) 1 fuel = none := by
  have key : ∀ fuel ordinal,
      getAllCudaDevicesLoop (fun _ => none) 1 fuel ordinal [] = none := by
    intro fuel
    induction fuel with
    | zero => intro ordinal; rfl
    | succ n ih => intro ordinal; exact ih (ordinal + 1)
  intro fuel ordinal
  refine ⟨key fuel ordinal, ?_⟩
  unfold get_all_cuda_devices
  rw [key fuel 0]

/-- Rust's `Iterator::max_by_key` on `available_vram_bytes`, as a fold: the
accumulator is kept only when its key is strictly greater, so among equal
keys the LAST element wins (the documented behaviour of `max_by_key`). -/
def maxByVramFold (d : CudaDevice) (ds : List CudaDevice) : CudaDevice :=
  ds.foldl
    (fun acc x =>
      if acc.available_vram_bytes > x.available_vram_bytes then acc else x) d

/-- `self.cuda_devices.iter().max_by_key(|d| d.available_vram_bytes)`. -/
def maxByKeyVram : List CudaDevice → Option CudaDevice
  | [] => none
  | d :: ds => some (maxByVramFold d ds)

/-- The automatic-selection tail of `CudaDeviceMap::main_gpu` (lines 88-99):
pick the `max_by_key` device (erring on an empty set), then re-scan the list
for its ordinal and bail if absent. -/
def mainGpuAuto (cuda_devices : List CudaDevice) : Except String Nat :=
  match maxByKeyVram cuda_devices with
  | none => Except.error "No devices found when setting main gpu"
  | some d =>
      if cuda_devices.any (fun x => x.ordinal == d.ordinal) then
        Except.ok d.ordinal
      else Except.error "Main GPU not found in CUDA devices"

/-- `CudaDeviceMap::main_gpu`.  `self_main_gpu` is the `self.main_gpu` field
(a user-requested ordinal); if it is set and present it is returned, if set
and absent the call bails in strict mode and otherwise falls through to
automatic selection, exactly as the `if let Some` block in the source. -/
def CudaDeviceMap.main_gpu (self_main_gpu : Option Nat)
    (error_on_gpu_error : Bool) (cuda_devices : List CudaDevice) :
    Except String Nat :=
  match self_main_gpu with
  | some m =>
      if cuda_devices.any (fun d => d.ordinal == m) then Except.ok m
      else if error_on_gpu_error then
        Except.error "Main GPU set by user not found in CUDA devices"
      else mainGpuAuto cuda_devices
  | none => mainGpuAuto cuda_devices

theorem maxByVramFold_cons (d x : CudaDevice) (t : List CudaDevice) :
    maxByVramFold d (x :: t) =
      maxByVramFold
        (if d.available_vram_bytes > x.available_vram_bytes then d else x) t := rfl

/-- The `max_by_key` fold returns an element of the candidate set. -/
theorem maxByVramFold_mem (ds : List CudaDevice) :
    ∀ d, maxByVramFold d ds = d ∨ maxByVramFold d ds ∈ ds := by
  induction ds with
  | nil => intro d; exact Or.inl rfl
  | cons x t ih =>
      intro d
      rw [maxByVramFold_cons]
      by_cases h : d.available_vram_bytes > x.available_vram_bytes
      · rw [if_pos h]
        rcases ih d with h1 | h1
        · exact Or.inl h1
        · exact Or.inr (List.mem_cons_of_mem x h1)
      · rw [if_neg h]
        rcases ih x with h1 | h1
        · exact Or.inr (by rw [h1]; exact List.mem_cons_self x t)
        · exact Or.inr (List.mem_cons_of_mem x h1)

/-- The `max_by_key` fold dominates the seed and every candidate. -/
theorem maxByVramFold_ge (ds : List CudaDevice) :
    ∀ d, d.available_vram_bytes ≤ (maxByVramFold d ds).available_vram_bytes ∧
      ∀ x ∈ ds,
        x.available_vram_bytes ≤ (maxByVramFold d ds).available_vram_bytes := by
  induction ds with
  | nil =>
      intro d
      exact ⟨Nat.le_refl _, by intro x hx; cases hx⟩
  | cons x t ih =>
      intro d
      rw [maxByVramFold_cons]
      by_cases h : d.available_vram_bytes > x.available_vram_bytes
      · rw [if_pos h]
        rcases ih d with ⟨h1, h2⟩
        refine ⟨h1, ?_⟩
        intro z hz
        rcases List.mem_cons.mp hz with hz | hz
        · exact hz ▸ Nat.le_trans (Nat.le_of_lt h) h1
        · exact h2 z hz
      · rw [if_neg h]
        rcases ih x with ⟨h1, h2⟩
        refine ⟨Nat.le_trans (Nat.le_of_not_lt h) h1, ?_⟩
        intro z hz
        rcases List.mem_cons.mp hz with hz | hz
        · exact hz ▸ h1
        · exact h2 z hz

/-- Lastness of the `max_by_key` fold: either the seed wins and every
candidate is strictly smaller, or the result sits in the candidate list with
every element strictly after it strictly smaller. -/
theorem maxByVramFold_last (ds : List CudaDevice) :
    ∀ d, (maxByVramFold d ds = d ∧
        ∀ x ∈ ds, x.available_vram_bytes < d.available_vram_bytes) ∨
      (∃ pre post, ds = pre ++ maxByVramFold d ds :: post ∧
        ∀ x ∈ post,
          x.available_vram_bytes < (maxByVramFold d ds).available_vram_bytes) := by
  induction ds with
  | nil =>
      intro d
      exact Or.inl ⟨rfl, by intro x hx; cases hx⟩
  | cons x t ih =>
      intro d
      rw [maxByVramFold_cons]
      by_cases h : d.available_vram_bytes > x.available_vram_bytes
      · rw [if_pos h]
        rcases ih d with ⟨h1, h2⟩ | ⟨pre, post, ht, hpost⟩
        · refine Or.inl ⟨h1, ?_⟩
          intro z hz
          rcases List.mem_cons.mp hz with hz | hz
          · exact hz ▸ h
          · exact h2 z hz
        · exact Or.inr ⟨x :: pre, post, by rw [List.cons_append, ← ht], hpost⟩
      · rw [if_neg h]
        rcases ih x with ⟨h1, h2⟩ | ⟨pre, post, ht, hpost⟩
        · refine Or.inr ⟨[], t, ?_, ?_⟩
          · rw [h1, List.nil_append]
          · intro z hz
            rw [h1]
            exact h2 z hz
        · exact Or.inr ⟨x :: pre, post, by rw [List.cons_append, ← ht], hpost⟩

/-- Counterexample to claim C5 as stated: two discovered devices with equal
available memory on ordinals 0 and 1 — automatic selection returns ordinal 1,
not the lowest ordinal 0. -/
theorem C5_tie_counterexample :
    CudaDeviceMap.main_gpu none true
        [⟨0, 100, none, none, none, none⟩, ⟨1, 100, none, none, none, none⟩] =
      Except.ok 1 ∧ (1 : Nat) ≠ 0 :=
  ⟨rfl, by decide⟩

/-- Claim C5 as amended: for every non-empty discovered device set with
strictly increasing ordinals, automatic primary selection returns the ordinal
of a device with the greatest available memory, and when two or more devices
tie for greatest available memory the HIGHEST ordinal among them (the device
latest in the list, per `max_by_key`'s last-wins tie-breaking) is returned. -/
theorem C5_amended_tie_goes_to_highest_ordinal (d : CudaDevice)
    (ds : List CudaDevice) (e : Bool)
    (hsorted : (d :: ds).Pairwise (fun a b => a.ordinal < b.ordinal)) :
    ∃ r, r ∈ d :: ds ∧
      CudaDeviceMap.main_gpu none e (d :: ds) = Except.ok r.ordinal ∧
      (∀ x ∈ d :: ds,
        x.available_vram_bytes ≤ r.available_vram_bytes) ∧
      (∀ x ∈ d :: ds, x.available_vram_bytes = r.available_vram_bytes →
        x.ordinal ≤ r.ordinal) := by
  obtain ⟨r, hr⟩ : ∃ r, maxByVramFold d ds = r := ⟨_, rfl⟩
  have hmem : r ∈ d :: ds := by
    rcases maxByVramFold_mem ds d with h | h
    · rw [hr] at h
      rw [h]
      exact List.mem_cons_self d ds
    · rw [hr] at h
      exact List.mem_cons_of_mem d h
  refine ⟨r, hmem, ?_, ?_, ?_⟩
  · have hany : (d :: ds).any (fun x => x.ordinal == r.ordinal) = true := by
      rw [List.any_eq_true]
      exact ⟨r, hmem, by simp⟩
    show mainGpuAuto (d :: ds) = _
    unfold mainGpuAuto
    show (if (d :: ds).any
        (fun x => x.ordinal == (maxByVramFold d ds).ordinal) = true then
        Except.ok (maxByVramFold d ds).ordinal
      else Except.error "Main GPU not found in CUDA devices") = _
    rw [hr, if_pos hany]
  · intro x hx
    rcases maxByVramFold_ge ds d with ⟨h1, h2⟩
    rw [hr] at h1 h2
    rcases List.mem_cons.mp hx with hx | hx
    · rw [hx]
      exact h1
    · exact h2 x hx
  · intro x hx heq
    rcases maxByVramFold_last ds d with ⟨h1, h2⟩ | ⟨pre, post, ht, hpost⟩
    · rw [hr] at h1
      rcases List.mem_cons.mp hx with hx | hx
      · rw [hx, h1]
      · rw [h1] at heq
        exact absurd heq (Nat.ne_of_lt (h2 x hx))
    · rw [hr] at ht hpost
      have hmemr : r ∈ ds := by
        rw [ht]
        exact List.mem_append_right pre (List.mem_cons_self r post)
      rcases List.mem_cons.mp hx with hx | hx
      · rcases List.pairwise_cons.mp hsorted with ⟨hd, _⟩
        rw [hx]
        exact Nat.le_of_lt (hd r hmemr)
      · have hpair : ds.Pairwise (fun a b => a.ordinal < b.ordinal) :=
          (List.pairwise_cons.mp hsorted).2
        rw [ht] at hpair hx
        rcases List.mem_append.mp hx with hx | hx
        · rcases List.pairwise_append.mp hpair with ⟨_, _, hcross⟩
          exact Nat.le_of_lt (hcross x hx r (List.mem_cons_self r post))
        · rcases List.mem_cons.mp hx with hx | hx
          · rw [hx]
          · exact absurd heq (Nat.ne_of_lt (hpost x hx))

/-- Witness for C5 as amended: two devices with equal available memory on
ordinals 0 and 1. -/
theorem C5_amended_witness :
    ∃ r, r ∈ [(⟨0, 100, none, none, none, none⟩ : CudaDevice),
        ⟨1, 100, none, none, none, none⟩] ∧
      CudaDeviceMap.main_gpu none true
          [⟨0, 100, none, none, none, none⟩, ⟨1, 100, none, none, none, none⟩] =
        Except.ok r.ordinal ∧
      (∀ x ∈ [(⟨0, 100, none, none, none, none⟩ : CudaDevice),
          ⟨1, 100, none, none, none, none⟩],
        x.available_vram_bytes ≤ r.available_vram_bytes) ∧
      (∀ x ∈ [(⟨0, 100, none, none, none, none⟩ : CudaDevice),
          ⟨1, 100, none, none, none, none⟩],
        x.available_vram_bytes = r.available_vram_bytes →
          x.ordinal ≤ r.ordinal) :=
  C5_amended_tie_goes_to_highest_ordinal ⟨0, 100, none, none, none, none⟩
    [⟨1, 100, none, none, none, none⟩] true (by simp)

/-- The tail of `CudaDeviceMap::initialize` (lines 56-67 of `cuda.rs`) once
the device list has been built: bail if it is empty, resolve the main GPU via
`CudaDeviceMap::main_gpu`, and sum `available_vram_bytes` over the devices
into `total_vram_bytes`.  Returns the resolved main-GPU ordinal together with
the aggregate. -/
def CudaDeviceMap.initResolve (self_main_gpu : Option Nat)
    (error_on_gpu_error : Bool) (cuda_devices : List CudaDevice) :
    Except String (Nat × Nat) :=
  if cuda_devices.isEmpty then Except.error "No CUDA devices found"
  else
    match CudaDeviceMap.main_gpu self_main_gpu error_on_gpu_error cuda_devices with
    | Except.error e => Except.error e
    | Except.ok m =>
        Except.ok (m, (cuda_devices.map (fun d => d.available_vram_bytes)).sum)

/-- Counterexample to claim C10 as stated: the fixed reserved overhead in the
code is `500 * 1024 * 1024` bytes, not 512 MiB, so the device with raw total
24 GiB (25769803776 bytes) is stored with available memory 25245515776 bytes,
not the claimed 23.5 GiB (= 25769803776 - 512 MiB = 25232932864 bytes). -/
theorem C10_overhead_counterexample :
    CUDA_OVERHEAD ≠ 512 * 1024 * 1024 ∧
    CudaDevice.new 0 (some ⟨some ⟨25769803776⟩, none, none, none⟩) =
      Except.ok ⟨0, 25245515776, none, none, none, none⟩ ∧
    (25245515776 : Nat) ≠ 25769803776 - 512 * 1024 * 1024 :=
  ⟨by decide, rfl, by decide⟩

/-- Claim C10 as amended: with the code's fixed overhead of 500 MiB
(524288000 bytes), devices reporting raw totals 24 GiB and 8 GiB are stored
with available memories 25245515776 and 8065646592 bytes (23.51171875 GiB and
7.51171875 GiB); automatic primary selection picks the 24 GiB device (ordinal
0), and the aggregate available memory is 33311162368 bytes
(31.0234375 GiB). -/
theorem C10_amended_concrete_scenario :
    CUDA_OVERHEAD = 500 * 1024 * 1024 ∧
    CudaDevice.new 0 (some ⟨some ⟨25769803776⟩, none, none, none⟩) =
      Except.ok ⟨0, 25245515776, none, none, none, none⟩ ∧
    CudaDevice.new 1 (some ⟨some ⟨8589934592⟩, none, none, none⟩) =
      Except.ok ⟨1, 8065646592, none, none, none, none⟩ ∧
    CudaDeviceMap.initResolve none true
        [⟨0, 25245515776, none, none, none, none⟩,
          ⟨1, 8065646592, none, none, none, none⟩] =
      Except.ok (0, 33311162368) :=
  ⟨rfl, rfl, rfl, rfl⟩
